import Mathlib

/-!
Shallow embedding of the tracing instrumentation core of the
LibreChat + Opik integration repository, together with proofs about its
natural-language specification.

Sources embedded:
  * `backend/otel.js` — the OpenTelemetry wrapper functions
    (`traceMCPToolCall`, `traceLLMCall`, `calculateLLMCost`, the disabled-mode
    stubs exported when `ENABLE_OTEL` is not `'true'`, and the
    `BatchSpanProcessor` configuration constants);
  * the MCP client instrumentation module (`instrumentMCPClient`);
  * the frontend console instrumentation (`instrumentConsole`) shown in
    `SELF_HOSTED_DEPLOYMENT.md`.

JavaScript values are embedded as the inductive type `JVal`; a promise-valued
`execute()` closure is embedded by its outcome, a value of
`Except JErr JVal` (`.ok v` = the promise resolves with `v`,
`.error e` = the closure throws / the promise rejects with error `e`).
Ambient runtime state (the active span of the context carrier, fresh span/trace
ids, and wall-clock time) is passed as explicit parameters.
-/

namespace LibreChatOtel

/-- Embedding of JavaScript values as they flow through the instrumentation
code: `undefined` is `undefined`, `num` carries a JS number as a rational
(NaN/Infinity and non-numeric coercions are outside the model), `obj` is a
plain object as an ordered field list, `arr` an array. -/
inductive JVal where
  | undefined : JVal
  | null : JVal
  | bool (b : Bool) : JVal
  | num (q : ℚ) : JVal
  | str (s : String) : JVal
  | obj (fields : List (String × JVal)) : JVal
  | arr (elems : List JVal) : JVal

/-- A JavaScript `Error`: its `.message` and its `.constructor.name`. -/
structure JErr where
  message : String
  name : String
deriving DecidableEq

/-- JavaScript truthiness of an embedded value (`if (v)`), per the ECMAScript
ToBoolean rules on the modelled fragment. -/
def truthy : JVal → Bool
  | .undefined => false
  | .null => false
  | .bool b => b
  | .num q => if q = 0 then false else true
  | .str s => if s = "" then false else true
  | .obj _ => true
  | .arr _ => true

/-- `v.k` — property read on an embedded value: the field of a plain object,
`undefined` otherwise (the source only reads properties on values it has
guarded to be objects, or through `?.`). -/
def getField : JVal → String → JVal
  | .obj fs, k => match fs.lookup k with
    | some v => v
    | none => .undefined
  | _, _ => .undefined

/-- `v[i]` — index read: element of an array, `undefined` otherwise. -/
def getIndex : JVal → Nat → JVal
  | .arr es, i => es.getD i .undefined
  | _, _ => .undefined

/-- `result && typeof result === 'object'` — the guard used before reading
result metadata: true exactly for (non-null) objects and arrays. -/
def isObjectLike : JVal → Bool
  | .obj _ => true
  | .arr _ => true
  | _ => false

/-- `typeof v === 'object'` alone (so also true of `null`), the test the
console instrumentation uses to decide between `JSON.stringify` and
`String`. -/
def isObjectType : JVal → Bool
  | .obj _ => true
  | .arr _ => true
  | .null => true
  | _ => false

/-- Is the value `undefined` (`v !== undefined` tests). -/
def JVal.isUndefined : JVal → Bool
  | .undefined => true
  | _ => false

/-- `v || d` on JS values: `v` when truthy, else the default `d`. -/
def jOrV (v d : JVal) : JVal :=
  if truthy v then v else d

/-- `v || d` where the source consumes the result as a number (token counts).
The model restricts these fields to numbers or absent; a `0` or non-numeric
field falls through to the default exactly as JS `||` does for `0`,
`undefined` and `null`. -/
def jnumOr (v : JVal) (d : ℚ) : ℚ :=
  match v with
  | .num q => if q = 0 then d else q
  | _ => d

/-- One character of JSON string escaping for `JSON.stringify`. -/
def escapeChar (c : Char) : String :=
  if c = '"' then "\\\""
  else if c = '\\' then "\\\\"
  else if c = '\n' then "\\n"
  else String.singleton c

/-- A JSON-quoted string literal. -/
def jsonQuote (s : String) : String :=
  "\"" ++ String.join (s.data.map escapeChar) ++ "\""

mutual

/-- Model of `JSON.stringify` on the embedded fragment. (`undefined`
serializes as `"null"` in the model; the source never stringifies a bare
`undefined` on the paths the claims exercise.) -/
def stringifyJ : JVal → String
  | .undefined => "null"
  | .null => "null"
  | .bool true => "true"
  | .bool false => "false"
  | .num q => toString q
  | .str s => jsonQuote s
  | .obj fs => "\x7b" ++ stringifyFields fs ++ "\x7d"
  | .arr es => "[" ++ stringifyElems es ++ "]"

/-- Comma-separated JSON serialization of object fields. -/
def stringifyFields : List (String × JVal) → String
  | [] => ""
  | [(k, v)] => jsonQuote k ++ ":" ++ stringifyJ v
  | (k, v) :: kv :: rest => jsonQuote k ++ ":" ++ stringifyJ v ++ "," ++ stringifyFields (kv :: rest)

/-- Comma-separated JSON serialization of array elements. -/
def stringifyElems : List JVal → String
  | [] => ""
  | [v] => stringifyJ v
  | v :: w :: rest => stringifyJ v ++ "," ++ stringifyElems (w :: rest)

end

mutual

/-- Model of JS `String(v)` coercion on the embedded fragment. -/
def jsToString : JVal → String
  | .undefined => "undefined"
  | .null => "null"
  | .bool true => "true"
  | .bool false => "false"
  | .num q => toString q
  | .str s => s
  | .obj _ => "[object Object]"
  | .arr es => jsToStringElems es

/-- Array-to-string coercion: elements joined with commas, `null` and
`undefined` elements as empty strings. -/
def jsToStringElems : List JVal → String
  | [] => ""
  | [.undefined] => ""
  | [.null] => ""
  | [v] => jsToString v
  | .undefined :: w :: rest => "," ++ jsToStringElems (w :: rest)
  | .null :: w :: rest => "," ++ jsToStringElems (w :: rest)
  | v :: w :: rest => jsToString v ++ "," ++ jsToStringElems (w :: rest)

end

/-! ## Spans and the active-context carrier -/

/-- Span status, per the OpenTelemetry `SpanStatusCode` enum used by the
source (`UNSET`, `OK`, `ERROR` with a message). -/
inductive SpanStatus where
  | unset : SpanStatus
  | ok : SpanStatus
  | error (message : String) : SpanStatus
deriving DecidableEq

/-- The causal coordinates of an active span, as read from the ambient
context by `tracer.startSpan`. -/
structure SpanCtx where
  traceId : Nat
  spanId : Nat
deriving DecidableEq

/-- A span as mutated by the wrapper code: name, ordered attribute map,
status, recorded exceptions, how many times `end()` was called, and its
causal coordinates. -/
structure Span where
  name : String
  attrs : List (String × JVal)
  status : SpanStatus
  exceptions : List JErr
  endCount : Nat
  spanId : Nat
  traceId : Nat
  parentSpanId : Option Nat

/-- Modelled from the spec (§4.2): `tracer.startSpan` — library code not under
`src/` — reads the currently active context, allocates a fresh span id `sid`,
inherits the active span's trace id (a fresh trace id `tidFresh` when no span
is active), and sets `parent_span_id` to the active span's id (null for a
fresh trace). The span starts open with `UNSET` status. -/
def startSpan (name : String) (attrs : List (String × JVal))
    (active : Option SpanCtx) (sid tidFresh : Nat) : Span :=
  { name := name
    attrs := attrs
    status := .unset
    exceptions := []
    endCount := 0
    spanId := sid
    traceId := match active with
      | some a => a.traceId
      | none => tidFresh
    parentSpanId := active.map (fun a => a.spanId) }

/-- `span.setAttribute(k, v)` on the ordered attribute map: replace the
binding in place when the key is present, append otherwise. -/
def setAttr : List (String × JVal) → String → JVal → List (String × JVal)
  | [], k, v => [(k, v)]
  | (k', v') :: rest, k, v =>
      if k' = k then (k, v) :: rest else (k', v') :: setAttr rest k v

/-- `span.setAttribute(k, v)`. -/
def Span.setAttribute (s : Span) (k : String) (v : JVal) : Span :=
  { s with attrs := setAttr s.attrs k v }

/-- `span.setAttributes({...})` — set each pair in order. -/
def Span.setAttributes (s : Span) (kvs : List (String × JVal)) : Span :=
  kvs.foldl (fun sp kv => sp.setAttribute kv.1 kv.2) s

/-- `span.setStatus(st)`. -/
def Span.setStatus (s : Span) (st : SpanStatus) : Span :=
  { s with status := st }

/-- `span.recordException(e)`. -/
def Span.recordException (s : Span) (e : JErr) : Span :=
  { s with exceptions := s.exceptions ++ [e] }

/-- `span.end()` — the model counts calls so that "ended exactly once" is a
statement about `endCount`. -/
def Span.endSpan (s : Span) : Span :=
  { s with endCount := s.endCount + 1 }

/-- Attribute lookup on a span (first binding wins, as in the map model). -/
def getAttr (s : Span) (k : String) : Option JVal :=
  s.attrs.lookup k

/-- The `metadata` object passed to the wrappers. A `none` field models an
absent (or falsy, hence spread-omitted) property. `mcpServerName` is read by
the MCP wrapper, `endpoint` by the LLM wrapper. -/
structure Metadata where
  conversationId : Option String := none
  userId : Option String := none
  mcpServerName : Option String := none
  endpoint : Option String := none

/-- The attribute contributed by a conditional spread
`...(field && { key: field })`. -/
def optAttr (k : String) : Option String → List (String × JVal)
  | some s => [(k, .str s)]
  | none => []

/-- Outcome of a traced call: the value returned to (or error re-thrown at)
the caller, together with the span the wrapper produced. -/
structure TraceOutcome where
  result : Except JErr JVal
  span : Span

/-! ## The backend wrappers (`backend/otel.js`) -/

/-- Embedding of `traceMCPToolCall(toolName, toolInput, executeFn, metadata)`
from `backend/otel.js` (enabled path, lines 188–265).

`exec` is the outcome of `executeFn()`; `execTime` the measured wall-clock
duration `Date.now() - startTime`; `active`, `sid`, `tid` the ambient active
context and fresh ids consumed by `tracer.startSpan`. -/
def traceMCPToolCall (toolName : String) (toolInput : JVal) (md : Metadata)
    (exec : Except JErr JVal) (execTime : Nat)
    (active : Option SpanCtx) (sid tid : Nat) : TraceOutcome :=
  let span := startSpan ("MCP Tool: " ++ toolName)
    ([("mcp.tool.name", .str toolName),
      ("mcp.tool.input", .str (stringifyJ toolInput)),
      ("span.kind", .str "internal"),
      ("component", .str "mcp-client")]
      ++ optAttr "conversation.id" md.conversationId
      ++ optAttr "user.id" md.userId
      ++ optAttr "mcp.server.name" md.mcpServerName)
    active sid tid
  match exec with
  | .ok result =>
    let span := span.setAttributes
      [("mcp.tool.success", .bool true),
       ("mcp.tool.execution_time_ms", .num execTime),
       ("mcp.tool.output", .str ((stringifyJ result).take 1000))]
    let span :=
      if isObjectLike result then
        let span :=
          if (getField result "count").isUndefined then span
          else span.setAttribute "mcp.tool.results_count" (getField result "count")
        if truthy (getField result "error") then
          span.setAttribute "mcp.tool.error" (getField result "error")
        else span
      else span
    let span := span.setStatus .ok
    { result := .ok result, span := span.endSpan }
  | .error e =>
    let span := span.setAttributes
      [("mcp.tool.success", .bool false),
       ("mcp.tool.execution_time_ms", .num execTime),
       ("mcp.tool.error", .str e.message),
       ("error", .bool true)]
    let span := span.setStatus (.error e.message)
    let span := span.recordException e
    { result := .error e, span := span.endSpan }

/-- `request.messages?.length || 0`. -/
def messagesCount (request : JVal) : ℚ :=
  match getField request "messages" with
  | .arr es => es.length
  | .str s => s.length
  | _ => 0

/-- The static per-1M-token price table of `calculateLLMCost`
(`backend/otel.js` lines 368–382): `some (prompt, completion)` when the
(provider, model) pair is present. -/
def pricingTable (provider model : String) : Option (ℚ × ℚ) :=
  if provider = "openai" then
    if model = "gpt-4" then some (30, 60)
    else if model = "gpt-4-turbo" then some (10, 30)
    else if model = "gpt-3.5-turbo" then some (0.5, 1.5)
    else none
  else if provider = "anthropic" then
    if model = "claude-3-opus" then some (15, 75)
    else if model = "claude-3-sonnet" then some (3, 15)
    else if model = "claude-3-haiku" then some (0.25, 1.25)
    else none
  else if provider = "google" then
    if model = "gemini-pro" then some (0.5, 1.5)
    else none
  else none

/-- Embedding of `calculateLLMCost(provider, model, promptTokens,
completionTokens)` (`backend/otel.js` lines 366–390):
`pricing[provider]?.[model] || { prompt: 1, completion: 2 }`, then
`promptTokens/1e6 * prompt + completionTokens/1e6 * completion`. -/
def calculateLLMCost (provider model : String) (promptTokens completionTokens : ℚ) : ℚ :=
  let modelPricing := (pricingTable provider model).getD (1, 2)
  (promptTokens / 1000000) * modelPricing.1 + (completionTokens / 1000000) * modelPricing.2

/-- Embedding of `traceLLMCall(provider, model, request, executeFn, metadata)`
from `backend/otel.js` (enabled path, lines 277–360). -/
def traceLLMCall (provider model : String) (request : JVal) (md : Metadata)
    (exec : Except JErr JVal) (execTime : Nat)
    (active : Option SpanCtx) (sid tid : Nat) : TraceOutcome :=
  let span := startSpan ("LLM Call: " ++ provider ++ "/" ++ model)
    ([("llm.provider", .str provider),
      ("llm.model", .str model),
      ("llm.request.messages_count", .num (messagesCount request)),
      ("llm.request.temperature", getField request "temperature"),
      ("llm.request.max_tokens", getField request "max_tokens"),
      ("llm.request.stream", jOrV (getField request "stream") (.bool false)),
      ("span.kind", .str "client"),
      ("component", .str "llm-client")]
      ++ optAttr "conversation.id" md.conversationId
      ++ optAttr "user.id" md.userId
      ++ optAttr "llm.endpoint" md.endpoint)
    active sid tid
  match exec with
  | .ok result =>
    let usage := getField result "usage"
    let promptTokens := jnumOr (getField usage "prompt_tokens") 0
    let completionTokens := jnumOr (getField usage "completion_tokens") 0
    let totalTokens := jnumOr (getField usage "total_tokens") (promptTokens + completionTokens)
    let estimatedCost := calculateLLMCost provider model promptTokens completionTokens
    let span := span.setAttributes
      [("llm.response.prompt_tokens", .num promptTokens),
       ("llm.response.completion_tokens", .num completionTokens),
       ("llm.response.total_tokens", .num totalTokens),
       ("llm.response.finish_reason",
         jOrV (getField (getIndex (getField result "choices") 0) "finish_reason") (.str "unknown")),
       ("llm.response.latency_ms", .num execTime),
       ("llm.response.estimated_cost", .num estimatedCost)]
    let span := span.setStatus .ok
    { result := .ok result, span := span.endSpan }
  | .error e =>
    let span := span.setAttributes
      [("llm.response.latency_ms", .num execTime),
       ("error", .bool true),
       ("error.message", .str e.message),
       ("error.type", .str e.name)]
    let span := span.setStatus (.error e.message)
    let span := span.recordException e
    { result := .error e, span := span.endSpan }

/-- The disabled-mode stub for `traceMCPToolCall` exported when
`ENABLE_OTEL` is not `'true'` (`backend/otel.js` lines 23–32):
`traceMCPToolCall: () => {}` — an arrow function that ignores every argument,
never invokes the execute closure, and returns `undefined`. -/
def disabledTraceMCPToolCall (_toolName : String) (_toolInput : JVal)
    (_md : Metadata) (_exec : Except JErr JVal) : JVal :=
  JVal.undefined

/-- `maxQueueSize: 2048` from the `BatchSpanProcessor` configuration
(`backend/otel.js` lines 91–95). -/
def maxQueueSizeConfig : Nat := 2048

/-- `maxExportBatchSize: 512` from the same configuration. -/
def maxExportBatchSizeConfig : Nat := 512

/-! ## The batch exporter queue (spec §4.4)

The `BatchSpanProcessor` itself lives in `@opentelemetry/sdk-trace-base`;
the repository only configures it (`backend/otel.js` lines 91–95). Its queue
discipline is therefore modelled from the spec. -/

/-- Modelled from the spec: §4.4 queue discipline of the batch exporter,
whose implementation (`BatchSpanProcessor` of
`@opentelemetry/sdk-trace-base`) is not under `src/` — "a bounded ordered
buffer; when `enqueue` is called on a full queue, the oldest entry is dropped
to admit the new one". The oldest entry is the head of the list. -/
def enqueueSpan (maxQueueSize : Nat) (buf : List α) (x : α) : List α :=
  if buf.length < maxQueueSize then buf ++ [x] else buf.drop 1 ++ [x]

/-- Enqueue a whole sequence, oldest first, into an initially empty buffer. -/
def enqueueAll (maxQueueSize : Nat) (xs : List α) : List α :=
  xs.foldl (enqueueSpan maxQueueSize) []

/-! ## Frontend console instrumentation (`instrumentConsole`,
`SELF_HOSTED_DEPLOYMENT.md`) -/

/-- The five console levels the instrumentation patches. -/
def consoleMethods : List String := ["log", "info", "warn", "error", "debug"]

/-- The message string built by the patched console method:
`args.map(arg => typeof arg === 'object' ? JSON.stringify(arg) : String(arg)).join(' ')`. -/
def consoleMessage (args : List JVal) : String :=
  String.intercalate " "
    (args.map (fun a => if isObjectType a then stringifyJ a else jsToString a))

/-- A span produced by the console instrumentation (started and immediately
ended). -/
structure LogSpan where
  name : String
  attrs : List (String × JVal)

/-- The observable effect of one call to a patched console method. -/
structure ConsoleEffect where
  /-- The invocation forwarded to the original console method
  (`originalConsole[method].apply(console, args)`). -/
  originalCall : String × List JVal
  /-- The telemetry span created, when any. -/
  span : Option LogSpan

/-- Embedding of the patched console method installed by `instrumentConsole`
(`SELF_HOSTED_DEPLOYMENT.md` lines 777–811): always forward to the original
method with the unmodified arguments, and create a `console.<method>` span
only for `warn` and `error`, with the joined message truncated to 500
characters. `url` is the ambient `window.location.href`. -/
def instrumentedConsoleCall (method : String) (args : List JVal) (url : String) : ConsoleEffect :=
  { originalCall := (method, args)
    span :=
      if method = "warn" ∨ method = "error" then
        some { name := "console." ++ method
               attrs := [("log.level", .str method),
                         ("log.message", .str ((consoleMessage args).take 500)),
                         ("browser.url", .str url)] }
      else none }

/-! ## MCP client proxy (`instrumentMCPClient`) -/

/-- A property of the wrapped MCP client object: either a method (a function
whose application to an argument list yields an outcome) or a plain value. -/
inductive JsProp where
  | func (f : List JVal → Except JErr JVal)
  | val (v : JVal)

/-- The options object of `instrumentMCPClient`; the getter closures are
modelled by the values they return. -/
structure MCPOptions where
  serverName : String := "MCP Server"
  getConversationId : Option String := none
  getUserId : Option String := none

/-- `prop === 'callTool' || prop === 'call_tool' || prop.startsWith('tool_')`. -/
def isToolCall (prop : String) : Bool :=
  prop == "callTool" || prop == "call_tool" || prop.startsWith "tool_"

/-- What the proxy's `get` trap hands back for a property: the value itself
for a non-function property, or an invocable method. Invoking a method
yields the caller-visible outcome together with the trace span produced, if
any. -/
inductive ProxyMember where
  | value (v : JVal)
  | method (call : List JVal → Except JErr JVal × Option Span)

/-- Apply a `ProxyMember` to arguments (`none` when the property is not a
function and hence not invocable). -/
def memberCall : ProxyMember → List JVal → Option (Except JErr JVal × Option Span)
  | .value _, _ => none
  | .method g, args => some (g args)

/-- Embedding of the `get` trap of the proxy returned by
`instrumentMCPClient(mcpClient, options)` (MCP instrumentation module,
lines 34–81). `target` is the original client's property table; `execTime`,
`active`, `sid`, `tid` are the ambient parameters consumed by
`traceMCPToolCall` when a call is traced. -/
def instrumentGet (target : String → JsProp) (opts : MCPOptions)
    (execTime : Nat) (active : Option SpanCtx) (sid tid : Nat)
    (prop : String) : ProxyMember :=
  match target prop with
  | .val v => .value v
  | .func f => .method (fun args =>
      if isToolCall prop then
        let toolName :=
          if prop = "callTool" ∨ prop = "call_tool" then jsToString (args.getD 0 .undefined)
          else prop
        let toolInput :=
          if prop = "callTool" ∨ prop = "call_tool" then jOrV (args.getD 1 .undefined) (.obj [])
          else jOrV (args.getD 0 .undefined) (.obj [])
        let md : Metadata :=
          { conversationId := opts.getConversationId
            userId := opts.getUserId
            mcpServerName := some opts.serverName }
        let out := traceMCPToolCall toolName toolInput md (f args) execTime active sid tid
        (out.result, some out.span)
      else (f args, none))

/-- Is the status an `ERROR` status? -/
def SpanStatus.isError : SpanStatus → Bool
  | .error _ => true
  | _ => false

/-! ## Concrete scenario values used by counterexamples and witnesses -/

/-- A tool result carrying a machine-checkable error field. -/
def c1Result : JVal := JVal.obj [("error", JVal.str "boom")]

/-- An oversized tool input: a 250-element array whose serialization is 1251
characters long. -/
def c4Input : JVal := JVal.arr (List.replicate 250 JVal.null)

/-- The resolved value of the C5 scenario's `execute()`:
`{usage: {prompt_tokens: 150, completion_tokens: 75}}`. -/
def c5Result : JVal :=
  JVal.obj [("usage", JVal.obj [("prompt_tokens", JVal.num 150), ("completion_tokens", JVal.num 75)])]

/-- The closed span of the C5 scenario
`trace_model_call("openai", "gpt-4", req, execute)`. -/
def c5Out : TraceOutcome :=
  traceLLMCall "openai" "gpt-4" (JVal.obj []) {} (.ok c5Result) 7 none 1 2

/-- Three concrete spans for the queue-bound witness. -/
def spanA : Span := startSpan "A" [] none 1 10

/-- Second concrete span for the queue-bound witness. -/
def spanB : Span := startSpan "B" [] none 2 10

/-- Third concrete span for the queue-bound witness. -/
def spanC : Span := startSpan "C" [] none 3 10

/-- A concrete MCP client property table for the proxy witness: a `callTool`
method, a plain `getStatus` method, and a non-function property. -/
def c10Target : String → JsProp := fun prop =>
  if prop = "callTool" then .func (fun args => .ok (.arr args))
  else if prop = "getStatus" then .func (fun _ => .ok (.str "up"))
  else .val (.str "plain")

/-! ## Helper lemmas about span operations -/

/-- `setAttribute` leaves every span field except `attrs` unchanged. -/
@[simp] theorem Span.parentSpanId_setAttribute (s : Span) (k : String) (v : JVal) :
    (s.setAttribute k v).parentSpanId = s.parentSpanId := rfl

/-- `setAttribute` preserves the trace id. -/
@[simp] theorem Span.traceId_setAttribute (s : Span) (k : String) (v : JVal) :
    (s.setAttribute k v).traceId = s.traceId := rfl

/-- `setAttribute` preserves the name. -/
@[simp] theorem Span.name_setAttribute (s : Span) (k : String) (v : JVal) :
    (s.setAttribute k v).name = s.name := rfl

/-- `setAttribute` preserves the status. -/
@[simp] theorem Span.status_setAttribute (s : Span) (k : String) (v : JVal) :
    (s.setAttribute k v).status = s.status := rfl

/-- `setAttribute` preserves the recorded exceptions. -/
@[simp] theorem Span.exceptions_setAttribute (s : Span) (k : String) (v : JVal) :
    (s.setAttribute k v).exceptions = s.exceptions := rfl

/-- `setAttribute` preserves the end counter. -/
@[simp] theorem Span.endCount_setAttribute (s : Span) (k : String) (v : JVal) :
    (s.setAttribute k v).endCount = s.endCount := rfl

/-- `setAttributes` leaves `parentSpanId` unchanged. -/
@[simp] theorem Span.parentSpanId_setAttributes (s : Span) (l : List (String × JVal)) :
    (s.setAttributes l).parentSpanId = s.parentSpanId := by
  induction l generalizing s with
  | nil => rfl
  | cons kv rest ih => simpa [Span.setAttributes] using ih (s.setAttribute kv.1 kv.2)

/-- `setAttributes` leaves `traceId` unchanged. -/
@[simp] theorem Span.traceId_setAttributes (s : Span) (l : List (String × JVal)) :
    (s.setAttributes l).traceId = s.traceId := by
  induction l generalizing s with
  | nil => rfl
  | cons kv rest ih => simpa [Span.setAttributes] using ih (s.setAttribute kv.1 kv.2)

/-- `setAttributes` leaves `name` unchanged. -/
@[simp] theorem Span.name_setAttributes (s : Span) (l : List (String × JVal)) :
    (s.setAttributes l).name = s.name := by
  induction l generalizing s with
  | nil => rfl
  | cons kv rest ih => simpa [Span.setAttributes] using ih (s.setAttribute kv.1 kv.2)

/-- `setAttributes` leaves `status` unchanged. -/
@[simp] theorem Span.status_setAttributes (s : Span) (l : List (String × JVal)) :
    (s.setAttributes l).status = s.status := by
  induction l generalizing s with
  | nil => rfl
  | cons kv rest ih => simpa [Span.setAttributes] using ih (s.setAttribute kv.1 kv.2)

/-- `setAttributes` leaves `exceptions` unchanged. -/
@[simp] theorem Span.exceptions_setAttributes (s : Span) (l : List (String × JVal)) :
    (s.setAttributes l).exceptions = s.exceptions := by
  induction l generalizing s with
  | nil => rfl
  | cons kv rest ih => simpa [Span.setAttributes] using ih (s.setAttribute kv.1 kv.2)

/-- `setAttributes` leaves `endCount` unchanged. -/
@[simp] theorem Span.endCount_setAttributes (s : Span) (l : List (String × JVal)) :
    (s.setAttributes l).endCount = s.endCount := by
  induction l generalizing s with
  | nil => rfl
  | cons kv rest ih => simpa [Span.setAttributes] using ih (s.setAttribute kv.1 kv.2)

/-- `setAttribute` rewrites the attribute map through `setAttr`. -/
@[simp] theorem Span.attrs_setAttribute (s : Span) (k : String) (v : JVal) :
    (s.setAttribute k v).attrs = setAttr s.attrs k v := rfl

/-- The attribute map a span starts with. -/
@[simp] theorem attrs_startSpan (n : String) (a : List (String × JVal))
    (active : Option SpanCtx) (sid tid : Nat) :
    (startSpan n a active sid tid).attrs = a := rfl

/-- `setAttributes` rewrites the attribute map by folding `setAttr`. -/
theorem Span.attrs_setAttributes (s : Span) (l : List (String × JVal)) :
    (s.setAttributes l).attrs = l.foldl (fun a kv => setAttr a kv.1 kv.2) s.attrs := by
  induction l generalizing s with
  | nil => rfl
  | cons kv rest ih => simpa [Span.setAttributes] using ih (s.setAttribute kv.1 kv.2)

/-- Projections of `setStatus`. -/
@[simp] theorem Span.status_setStatus (s : Span) (st : SpanStatus) :
    (s.setStatus st).status = st := rfl

/-- `setStatus` preserves all other fields. -/
@[simp] theorem Span.fields_setStatus (s : Span) (st : SpanStatus) :
    (s.setStatus st).attrs = s.attrs ∧ (s.setStatus st).parentSpanId = s.parentSpanId ∧
    (s.setStatus st).traceId = s.traceId ∧ (s.setStatus st).name = s.name ∧
    (s.setStatus st).exceptions = s.exceptions ∧ (s.setStatus st).endCount = s.endCount :=
  ⟨rfl, rfl, rfl, rfl, rfl, rfl⟩

/-- Projections of `recordException`. -/
@[simp] theorem Span.exceptions_recordException (s : Span) (e : JErr) :
    (s.recordException e).exceptions = s.exceptions ++ [e] := rfl

/-- `recordException` preserves the other fields. -/
@[simp] theorem Span.fields_recordException (s : Span) (e : JErr) :
    (s.recordException e).attrs = s.attrs ∧ (s.recordException e).parentSpanId = s.parentSpanId ∧
    (s.recordException e).traceId = s.traceId ∧ (s.recordException e).name = s.name ∧
    (s.recordException e).status = s.status ∧ (s.recordException e).endCount = s.endCount :=
  ⟨rfl, rfl, rfl, rfl, rfl, rfl⟩

/-- Projections of `endSpan`. -/
@[simp] theorem Span.endCount_endSpan (s : Span) :
    s.endSpan.endCount = s.endCount + 1 := rfl

/-- `endSpan` preserves the other fields. -/
@[simp] theorem Span.fields_endSpan (s : Span) :
    s.endSpan.attrs = s.attrs ∧ s.endSpan.parentSpanId = s.parentSpanId ∧
    s.endSpan.traceId = s.traceId ∧ s.endSpan.name = s.name ∧
    s.endSpan.status = s.status ∧ s.endSpan.exceptions = s.exceptions :=
  ⟨rfl, rfl, rfl, rfl, rfl, rfl⟩

/-- Looking up the key just set by `setAttr` yields the new value. -/
theorem lookup_setAttr_self (l : List (String × JVal)) (k : String) (v : JVal) :
    (setAttr l k v).lookup k = some v := by
  induction l with
  | nil => simp [setAttr, List.lookup]
  | cons kv rest ih =>
    obtain ⟨k', v'⟩ := kv
    by_cases h : k' = k
    · subst h; simp [setAttr, List.lookup]
    · have hb : (k == k') = false := beq_eq_false_iff_ne.mpr (Ne.symm h)
      simp [setAttr, h, List.lookup, hb, ih]

/-- `setAttr` on another key does not change a lookup. -/
theorem lookup_setAttr_ne (l : List (String × JVal)) (j k : String) (v : JVal)
    (h : j ≠ k) : (setAttr l k v).lookup j = l.lookup j := by
  have hb : (j == k) = false := beq_eq_false_iff_ne.mpr h
  induction l with
  | nil => simp [setAttr, List.lookup, hb]
  | cons kv rest ih =>
    obtain ⟨k', v'⟩ := kv
    by_cases hk : k' = k
    · subst hk
      simp [setAttr, List.lookup, hb]
    · by_cases hj : k' = j
      · subst hj
        simp [setAttr, hk, List.lookup]
      · have hb' : (j == k') = false := beq_eq_false_iff_ne.mpr (Ne.symm hj)
        simp [setAttr, hk, List.lookup, hb', ih]

/-- A truthy property read forces the value to be a plain object. -/
theorem isObjectLike_of_truthy_getField (v : JVal) (k : String)
    (h : truthy (getField v k) = true) : isObjectLike v = true := by
  cases v <;> simp_all [getField, truthy, isObjectLike]

/-- The MCP wrapper's span is always named after the tool. -/
theorem traceMCPToolCall_span_name (tn : String) (input : JVal) (md : Metadata)
    (exec : Except JErr JVal) (t : Nat) (active : Option SpanCtx) (sid tid : Nat) :
    (traceMCPToolCall tn input md exec t active sid tid).span.name = "MCP Tool: " ++ tn := by
  cases exec with
  | ok r =>
    simp only [traceMCPToolCall]
    split_ifs <;> simp [startSpan]
  | error e =>
    simp [traceMCPToolCall, startSpan]

/-- Folding `enqueueSpan` over a whole sequence keeps exactly the most recent
`m` entries: the buffer is the input minus its oldest overflow prefix. -/
theorem enqueueAll_eq_drop {α : Type} (m : Nat) (hm : 0 < m) (xs : List α) :
    enqueueAll m xs = xs.drop (xs.length - m) := by
  induction xs using List.reverseRecOn with
  | nil => simp [enqueueAll]
  | append_singleton ys x ih =>
    have hstep : enqueueAll m (ys ++ [x]) = enqueueSpan m (enqueueAll m ys) x := by
      simp [enqueueAll, List.foldl_append]
    rw [hstep, ih]
    by_cases h : ys.length < m
    · have h0 : ys.length - m = 0 := Nat.sub_eq_zero_of_le (Nat.le_of_lt h)
      have h1 : ys.length + 1 - m = 0 := Nat.sub_eq_zero_of_le h
      simp [enqueueSpan, h0, h1, h]
    · push_neg at h
      have hlen : (ys.drop (ys.length - m)).length = m := by
        rw [List.length_drop]
        omega
      have hnot : ¬ (ys.drop (ys.length - m)).length < m := by omega
      rw [enqueueSpan, if_neg hnot]
      have hdd : (ys.drop (ys.length - m)).drop 1 = ys.drop (ys.length - m + 1) := by
        rw [List.drop_drop]
      have happ : (ys ++ [x]).drop (ys.length + 1 - m)
          = ys.drop (ys.length + 1 - m) ++ [x] := by
        apply List.drop_append_of_le_length
        omega
      have hlen2 : (ys ++ [x]).length = ys.length + 1 := by simp
      rw [hdd, hlen2, happ]
      congr 2
      omega

/-- Every price pair the table can deliver (including the default) is
componentwise non-negative. -/
theorem pricing_pair_nonneg (provider model : String) :
    0 ≤ ((pricingTable provider model).getD (1, 2)).1 ∧
    0 ≤ ((pricingTable provider model).getD (1, 2)).2 := by
  unfold pricingTable
  split_ifs <;> norm_num [Option.getD_some, Option.getD_none]

/-! ## Claim theorems -/

/-- Claim C2 (code_bug evidence): with tracing disabled, the exported
`traceMCPToolCall` stub is `() => {}`: whatever the execute closure would
return or throw, the stub returns `undefined` without running it — at the
failing input, a closure resolving to `42`, the caller receives `undefined`,
not `42`. -/
theorem C2_disabled_stub_drops_execute :
    (∀ tn input md exec, disabledTraceMCPToolCall tn input md exec = JVal.undefined) ∧
    JVal.isUndefined (disabledTraceMCPToolCall "search" (JVal.obj []) {} (.ok (JVal.num 42))) = true ∧
    JVal.isUndefined (JVal.num 42) = false :=
  ⟨fun _ _ _ _ => rfl, rfl, rfl⟩

/-- Claim C3: when the execute closure throws error `e`, both wrappers
re-throw exactly `e`, the span is given status ERROR carrying `e.message`,
the exception is recorded on the span, and `span.end()` runs exactly once. -/
theorem C3_exception_transparency (tn : String) (input : JVal) (md : Metadata)
    (provider model : String) (request : JVal) (e : JErr) (t : Nat)
    (active : Option SpanCtx) (sid tid : Nat) :
    (traceMCPToolCall tn input md (.error e) t active sid tid).result = .error e ∧
    (traceMCPToolCall tn input md (.error e) t active sid tid).span.status = .error e.message ∧
    (traceMCPToolCall tn input md (.error e) t active sid tid).span.exceptions = [e] ∧
    (traceMCPToolCall tn input md (.error e) t active sid tid).span.endCount = 1 ∧
    (traceLLMCall provider model request md (.error e) t active sid tid).result = .error e ∧
    (traceLLMCall provider model request md (.error e) t active sid tid).span.status = .error e.message ∧
    (traceLLMCall provider model request md (.error e) t active sid tid).span.exceptions = [e] ∧
    (traceLLMCall provider model request md (.error e) t active sid tid).span.endCount = 1 := by
  refine ⟨rfl, ?_, ?_, ?_, rfl, ?_, ?_, ?_⟩ <;>
    simp [traceMCPToolCall, traceLLMCall, startSpan]

/-- Claim C6: for a fixed (provider, model), the estimated cost is
non-decreasing in both token counts; it is never negative; and an unknown
(provider, model) pair falls back to the default per-unit price pair (1, 2). -/
theorem C6_cost_monotone_default (provider model : String) (pt ct pt' ct' : ℚ)
    (hpt : 0 ≤ pt) (hct : 0 ≤ ct) (hpt' : pt ≤ pt') (hct' : ct ≤ ct') :
    calculateLLMCost provider model pt ct ≤ calculateLLMCost provider model pt' ct' ∧
    0 ≤ calculateLLMCost provider model pt ct ∧
    (pricingTable provider model = none →
      calculateLLMCost provider model pt ct = pt / 1000000 * 1 + ct / 1000000 * 2) := by
  obtain ⟨hp, hc⟩ := pricing_pair_nonneg provider model
  refine ⟨?_, ?_, ?_⟩
  · simp only [calculateLLMCost]
    have h1 : pt / 1000000 ≤ pt' / 1000000 := by linarith
    have h2 : ct / 1000000 ≤ ct' / 1000000 := by linarith
    have h1' : (0 : ℚ) ≤ pt / 1000000 := by positivity
    have h2' : (0 : ℚ) ≤ ct / 1000000 := by positivity
    exact add_le_add (mul_le_mul_of_nonneg_right h1 hp) (mul_le_mul_of_nonneg_right h2 hc)
  · unfold calculateLLMCost
    exact add_nonneg (mul_nonneg (div_nonneg hpt (by norm_num)) hp)
      (mul_nonneg (div_nonneg hct (by norm_num)) hc)
  · intro h
    simp [calculateLLMCost, h]

/-- Claim C6 witness: concrete instance at the unknown pair ("foo", "bar"). -/
theorem C6_cost_monotone_default_witness :
    calculateLLMCost "foo" "bar" 1 2 ≤ calculateLLMCost "foo" "bar" 3 5 ∧
    0 ≤ calculateLLMCost "foo" "bar" 1 2 ∧
    (pricingTable "foo" "bar" = none →
      calculateLLMCost "foo" "bar" 1 2 = 1 / 1000000 * 1 + 2 / 1000000 * 2) :=
  C6_cost_monotone_default "foo" "bar" 1 2 3 5 (by norm_num) (by norm_num)
    (by norm_num) (by norm_num)

/-- Claim C7: enqueuing more than `max_queue_size` spans leaves exactly
`max_queue_size` spans in the buffer, and they are the most recently
enqueued ones (the oldest are dropped). -/
theorem C7_queue_bound {α : Type} (m : Nat) (xs : List α)
    (hm : 0 < m) (hN : m < xs.length) :
    (enqueueAll m xs).length = m ∧ enqueueAll m xs = xs.drop (xs.length - m) := by
  have h := enqueueAll_eq_drop m hm xs
  refine ⟨?_, h⟩
  rw [h, List.length_drop]
  omega

/-- Claim C7 witness: with `max_queue_size = 2`, enqueuing spans A, B, C in
order leaves exactly the buffer [B, C]. -/
theorem C7_queue_bound_witness :
    (enqueueAll 2 [spanA, spanB, spanC]).length = 2 ∧
    enqueueAll 2 [spanA, spanB, spanC] = [spanB, spanC] := by
  have h := C7_queue_bound 2 [spanA, spanB, spanC] (by norm_num) (by decide)
  exact ⟨h.1, by rw [h.2]; rfl⟩

/-- Claim C8: a span started by either wrapper while span A is active has
parent_span_id = A.span_id and trace_id = A.trace_id. -/
theorem C8_parent_linkage (A : SpanCtx) (tn : String) (input : JVal) (md : Metadata)
    (provider model : String) (request : JVal) (exec : Except JErr JVal)
    (t sid tid : Nat) :
    (traceMCPToolCall tn input md exec t (some A) sid tid).span.parentSpanId = some A.spanId ∧
    (traceMCPToolCall tn input md exec t (some A) sid tid).span.traceId = A.traceId ∧
    (traceLLMCall provider model request md exec t (some A) sid tid).span.parentSpanId = some A.spanId ∧
    (traceLLMCall provider model request md exec t (some A) sid tid).span.traceId = A.traceId := by
  refine ⟨?_, ?_, ?_, ?_⟩
  · cases exec with
    | ok r =>
      simp only [traceMCPToolCall]
      split_ifs <;> simp [startSpan]
    | error e => simp [traceMCPToolCall, startSpan]
  · cases exec with
    | ok r =>
      simp only [traceMCPToolCall]
      split_ifs <;> simp [startSpan]
    | error e => simp [traceMCPToolCall, startSpan]
  · cases exec <;> simp [traceLLMCall, startSpan]
  · cases exec <;> simp [traceLLMCall, startSpan]

/-- Claim C1 counterexample: for a tool result carrying the machine-checkable
error field `{error: "boom"}` the wrapper sets span status OK, not ERROR —
refuting the claim at this concrete input. -/
theorem C1_counterexample :
    truthy (getField c1Result "error") = true ∧
    (traceMCPToolCall "search" (JVal.obj []) {} (.ok c1Result) 3 none 1 2).span.status
      = SpanStatus.ok ∧
    SpanStatus.isError
      (traceMCPToolCall "search" (JVal.obj []) {} (.ok c1Result) 3 none 1 2).span.status
      = false :=
  ⟨rfl, rfl, rfl⟩

/-- Claim C1 (amended): when `execute()` resolves with a result whose `error`
field is truthy, the wrapper records that field as the `mcp.tool.error`
attribute and still records the success attributes and the truncated
serialized result, but sets the span status to OK — ERROR status is reserved
for thrown exceptions — and returns the result unchanged. -/
theorem C1_error_field_recorded_status_ok (tn : String) (input : JVal) (md : Metadata)
    (result : JVal) (t : Nat) (active : Option SpanCtx) (sid tid : Nat)
    (h : truthy (getField result "error") = true) :
    (traceMCPToolCall tn input md (.ok result) t active sid tid).result = .ok result ∧
    (traceMCPToolCall tn input md (.ok result) t active sid tid).span.status = SpanStatus.ok ∧
    getAttr (traceMCPToolCall tn input md (.ok result) t active sid tid).span "mcp.tool.error"
      = some (getField result "error") ∧
    getAttr (traceMCPToolCall tn input md (.ok result) t active sid tid).span "mcp.tool.success"
      = some (.bool true) ∧
    getAttr (traceMCPToolCall tn input md (.ok result) t active sid tid).span "mcp.tool.output"
      = some (.str ((stringifyJ result).take 1000)) := by
  have hobj := isObjectLike_of_truthy_getField result "error" h
  refine ⟨rfl, ?_, ?_, ?_, ?_⟩ <;>
    simp only [traceMCPToolCall, getAttr, hobj, h, if_true] <;>
    split_ifs <;>
    simp +decide [Span.attrs_setAttributes, Span.attrs_setAttribute, attrs_startSpan,
      lookup_setAttr_self, lookup_setAttr_ne]

/-- Claim C1 witness: the amended statement at the concrete result
`{error: "boom"}`. -/
theorem C1_error_field_recorded_status_ok_witness :
    (traceMCPToolCall "search" (JVal.obj []) {} (.ok c1Result) 5 none 1 2).result = .ok c1Result ∧
    (traceMCPToolCall "search" (JVal.obj []) {} (.ok c1Result) 5 none 1 2).span.status = SpanStatus.ok ∧
    getAttr (traceMCPToolCall "search" (JVal.obj []) {} (.ok c1Result) 5 none 1 2).span "mcp.tool.error"
      = some (getField c1Result "error") ∧
    getAttr (traceMCPToolCall "search" (JVal.obj []) {} (.ok c1Result) 5 none 1 2).span "mcp.tool.success"
      = some (.bool true) ∧
    getAttr (traceMCPToolCall "search" (JVal.obj []) {} (.ok c1Result) 5 none 1 2).span "mcp.tool.output"
      = some (.str ((stringifyJ c1Result).take 1000)) :=
  C1_error_field_recorded_status_ok "search" (JVal.obj []) {} c1Result 5 none 1 2 rfl

set_option maxRecDepth 8000 in
/-- Claim C4 counterexample: a 250-element array input serializes to 1251
characters, and the `mcp.tool.input` attribute stores the full 1251-character
string — more than the claimed 1000-byte cap. -/
theorem C4_counterexample :
    getAttr (traceMCPToolCall "query" c4Input {} (.ok JVal.null) 1 none 1 2).span "mcp.tool.input"
      = some (.str (stringifyJ c4Input)) ∧
    (stringifyJ c4Input).length = 1251 ∧
    1000 < (stringifyJ c4Input).length := by
  have hlen : (stringifyJ c4Input).length = 1251 := by rfl
  exact ⟨rfl, hlen, by rw [hlen]; norm_num⟩

/-- Claim C4 (amended): the serialized tool input is stored as the
`mcp.tool.input` attribute at full length — no truncation — on both the
success and the exception path; it is the serialized result
(`mcp.tool.output`) that is truncated to 1000 characters. -/
theorem C4_input_untruncated_output_truncated (tn : String) (input : JVal)
    (md : Metadata) (t : Nat) (active : Option SpanCtx) (sid tid : Nat) :
    (∀ exec, getAttr (traceMCPToolCall tn input md exec t active sid tid).span "mcp.tool.input"
      = some (.str (stringifyJ input))) ∧
    (∀ r, getAttr (traceMCPToolCall tn input md (.ok r) t active sid tid).span "mcp.tool.output"
      = some (.str ((stringifyJ r).take 1000))) := by
  constructor
  · intro exec
    cases exec with
    | ok r =>
      simp only [traceMCPToolCall, getAttr]
      split_ifs <;>
        simp +decide [Span.attrs_setAttributes, Span.attrs_setAttribute, attrs_startSpan,
          lookup_setAttr_self, lookup_setAttr_ne, List.lookup]
    | error e =>
      simp +decide [traceMCPToolCall, getAttr, Span.attrs_setAttributes,
        Span.attrs_setAttribute, attrs_startSpan,
        lookup_setAttr_self, lookup_setAttr_ne, List.lookup]
  · intro r
    simp only [traceMCPToolCall, getAttr]
    split_ifs <;>
      simp +decide [Span.attrs_setAttributes, Span.attrs_setAttribute, attrs_startSpan,
        lookup_setAttr_self, lookup_setAttr_ne]

/-- Claim C5: the scenario `trace_model_call("openai", "gpt-4", req, execute)`
with execute resolving to `{usage: {prompt_tokens: 150, completion_tokens: 75}}`
produces a closed span with total_tokens 225 and estimated cost
`(150/1e6)*30 + (75/1e6)*60`. -/
theorem C5_scenario_tokens_and_cost :
    getAttr c5Out.span "llm.response.total_tokens" = some (.num 225) ∧
    getAttr c5Out.span "llm.response.estimated_cost"
      = some (.num ((150 / 1000000) * 30 + (75 / 1000000) * 60)) ∧
    c5Out.span.endCount = 1 := by
  refine ⟨?_, ?_, rfl⟩ <;>
    (simp [c5Out, c5Result, traceLLMCall, Span.setAttributes, Span.setAttribute, setAttr,
      startSpan, getAttr, getField, getIndex, jnumOr, jOrV, optAttr, Span.setStatus,
      Span.endSpan, messagesCount, List.lookup, calculateLLMCost, pricingTable, truthy]) <;>
    norm_num

/-- Claim C9: every patched console level forwards the unmodified arguments to
the original console method, and a `console.<method>` span (message truncated
to 500 characters) is created exactly for the `warn` and `error` levels. -/
theorem C9_console_levels (method : String) (args : List JVal) (url : String)
    (_hm : method ∈ consoleMethods) :
    (instrumentedConsoleCall method args url).originalCall = (method, args) ∧
    ((instrumentedConsoleCall method args url).span.isSome
      ↔ (method = "warn" ∨ method = "error")) ∧
    (∀ sp, (instrumentedConsoleCall method args url).span = some sp →
      sp.name = "console." ++ method ∧
      sp.attrs.lookup "log.message" = some (.str ((consoleMessage args).take 500))) := by
  refine ⟨rfl, ?_, ?_⟩ <;>
    (unfold instrumentedConsoleCall; split_ifs with h <;> simp +decide [h, List.lookup])

/-- Claim C9 witness: the `warn` level at a concrete argument list. -/
theorem C9_console_levels_witness :
    (instrumentedConsoleCall "warn" [JVal.str "hello"] "http://app").originalCall
      = ("warn", [JVal.str "hello"]) ∧
    ((instrumentedConsoleCall "warn" [JVal.str "hello"] "http://app").span.isSome
      ↔ ("warn" = "warn" ∨ "warn" = "error")) ∧
    (∀ sp, (instrumentedConsoleCall "warn" [JVal.str "hello"] "http://app").span = some sp →
      sp.name = "console." ++ "warn" ∧
      sp.attrs.lookup "log.message"
        = some (.str ((consoleMessage [JVal.str "hello"]).take 500))) :=
  C9_console_levels "warn" [JVal.str "hello"] "http://app" (by decide)

/-- Claim C10: the MCP proxy traces an invocation exactly when the property
name is `callTool`, `call_tool`, or starts with `tool_`; for the first two the
traced tool name is the first argument; any other method call is forwarded to
the original client unchanged (same result, no span), and a non-function
property is returned as-is. -/
theorem C10_proxy_interception (target : String → JsProp) (opts : MCPOptions)
    (t : Nat) (active : Option SpanCtx) (sid tid : Nat)
    (prop : String) (args : List JVal) (v : JVal) (f : List JVal → Except JErr JVal) :
    (target prop = .val v →
      instrumentGet target opts t active sid tid prop = .value v) ∧
    (target prop = .func f → isToolCall prop = false →
      memberCall (instrumentGet target opts t active sid tid prop) args
        = some (f args, none)) ∧
    (target prop = .func f → isToolCall prop = true →
      ∃ r sp, memberCall (instrumentGet target opts t active sid tid prop) args
          = some (r, some sp) ∧
        sp.name = "MCP Tool: " ++
          (if prop = "callTool" ∨ prop = "call_tool"
            then jsToString (args.getD 0 .undefined) else prop)) := by
  refine ⟨?_, ?_, ?_⟩
  · intro h
    simp [instrumentGet, h]
  · intro h htc
    simp [instrumentGet, h, memberCall, htc]
  · intro h htc
    simp only [instrumentGet, h, htc, if_true, memberCall]
    refine ⟨_, _, rfl, ?_⟩
    exact traceMCPToolCall_span_name _ _ _ _ _ _ _ _

/-- Claim C10 witness: at the concrete client `c10Target`, invoking `callTool`
with a first argument `"get_assets"` produces a trace span named after that
first argument. -/
theorem C10_proxy_interception_witness :
    ∃ r sp, memberCall (instrumentGet c10Target {} 4 none 1 2 "callTool")
          [JVal.str "get_assets", JVal.obj []]
        = some (r, some sp) ∧
      sp.name = "MCP Tool: " ++
        (if ("callTool" : String) = "callTool" ∨ ("callTool" : String) = "call_tool"
          then jsToString ([JVal.str "get_assets", JVal.obj []].getD 0 JVal.undefined)
          else "callTool") :=
  (C10_proxy_interception c10Target {} 4 none 1 2 "callTool"
    [JVal.str "get_assets", JVal.obj []] (JVal.str "plain")
    (fun args => .ok (.arr args))).2.2 rfl rfl

end LibreChatOtel
